import Mathlib

/-
Verification development for the roro-chat-api leaderboard subsystem
(`src/leaderboard.py`): a shallow embedding of the query parser, the
boards cache, the response formatter and the command orchestrator,
together with theorems settling the specified properties.

Conventions of the embedding:
* Python strings are Lean `String`s; Python ints are Lean `Int`/`Nat`.
* Raising `ValueError` (the `InvalidQuery` condition of the parser) is
  modelled by `Except.error`; remote-fetch failures by `Except.error ()`.
* Python dict query parameters are modelled by a structure of `Option`
  fields (a field is `some` exactly when the key is present).
* `time.time()` is modelled by an explicit `now : Nat` argument; the two
  reads inside one cache call are modelled by the same `now` (time is
  taken to advance only between calls).
-/

set_option maxRecDepth 16384

namespace Roro

/-! ### Data model (`SearchType`, query params, boards, result rows) -/

/-- The closed `SearchType` enumeration of `leaderboard.py`. -/
inductive SearchType where
  | RANGE
  | TOP
  | NAME
  | LTE_TIME
  | GTE_TIME
  | PLACE
  deriving DecidableEq

/-- The query-parameter dict sent to the remote search.  A field is `some`
exactly when the corresponding key is present in the Python dict. -/
structure Params where
  name : Option String := none
  place : Option Int := none
  take : Option Int := none
  ltetime : Option String := none
  gtetime : Option String := none
  deriving DecidableEq

/-- A board record as returned by `GET boards` (`name`, `displayName`,
`isDefault`). -/
structure Board where
  name : String
  displayName : String
  isDefault : Bool
  deriving DecidableEq

/-- The `run` object of one result row (`place`, `players`,
`completionTime`). -/
structure Run where
  place : Int
  players : List String
  completionTime : String
  deriving DecidableEq

/-- The fixed category list `CATEGORIES = ["any", "aa"]`. -/
def CATEGORIES : List String := ["any", "aa"]

/-! ### Python numeric-token helpers

`int(token)` on a whitespace-free token (the tokens reaching the parser
are produced by `split(" ")` after sanitisation to `[a-zA-Z0-9 !.:<>_]`,
so they never contain whitespace): an optional sign followed by ASCII
digits, with single underscores allowed between digits. -/

/-- Numeric value of an ASCII digit character. -/
def charDigit (c : Char) : Nat := c.toNat - 48

/-- Continue parsing a Python integer literal after its first digit:
digits, with single underscores allowed only between digits. -/
def digitsRest : Nat → List Char → Option Nat
  | acc, [] => some acc
  | acc, c :: cs =>
    if c.isDigit then digitsRest (acc * 10 + charDigit c) cs
    else if c = '_' then
      match cs with
      | [] => none
      | d :: ds => if d.isDigit then digitsRest (acc * 10 + charDigit d) ds else none
    else none

/-- Parse a nonempty digit group (Python `digitpart`). -/
def parseDigits : List Char → Option Nat
  | [] => none
  | c :: cs => if c.isDigit then digitsRest (charDigit c) cs else none

/-- Models Python `int(token)` on the characters of a whitespace-free
token: optional `+`/`-` sign, then digits with single underscores between
digits; `none` models a raised `ValueError`. -/
def parseIntChars : List Char → Option Int
  | '-' :: rest => (parseDigits rest).map (fun n => -(n : Int))
  | '+' :: rest => (parseDigits rest).map (fun n => (n : Int))
  | l => (parseDigits l).map (fun n => (n : Int))

/-- Models Python `int(token)` on a whitespace-free token. -/
def parseIntPy (s : String) : Option Int := parseIntChars s.data

/-- Models Python `str.split(sep)` for a one-character separator, at the
character-list level: split at every occurrence, keeping empty pieces. -/
def splitCh (sep : Char) : List Char → List (List Char)
  | [] => [[]]
  | c :: cs =>
    if c = sep then [] :: splitCh sep cs
    else
      match splitCh sep cs with
      | g :: gs => (c :: g) :: gs
      | [] => [[c]]

/-- Models Python `str.isdigit()` on sanitised (ASCII-only) tokens:
nonempty and all characters decimal digits. -/
def pyIsdigit (s : String) : Bool := !s.data.isEmpty && s.data.all Char.isDigit

/-- Decimal value of an all-digit character list (`int` on a token that
passed `isdigit`). -/
def digitsVal (cs : List Char) : Nat := cs.foldl (fun a c => a * 10 + charDigit c) 0

/-- Models the Python format spec `f"{x:02d}"`: minimum width 2, padded
with zeros after the sign. -/
def pad2 (x : Int) : String :=
  if x < 0 then "-" ++ toString x.natAbs
  else if x < 10 then "0" ++ toString x.natAbs
  else toString x.natAbs

/-! ### Query Parser (`QueryParser`)

The stateful methods of `QueryParser` are embedded as pure functions; a
raised `ValueError` becomes `Except.error`.  The reflective dispatch
`getattr(self, f"_parse_as_{args[0]}")` resolves to `_parse_as_range` or
`_parse_as_top` (the only attributes with that prefix string), and falls
back to `_parse_general` otherwise. -/

/-- A successful parse: `(params, search_type, search_term)`. -/
abbrev ParseResult := Params × SearchType × String

/-- `QueryParser._parse_time_string`: split on `:`, convert every part
with `int`, then place the parts per category; lengths other than 1, 2, 3
raise (`ValueError` from `int` or from tuple unpacking). -/
def parseTimeString (category : String) (timeStr : String) : Option String :=
  match (splitCh ':' timeStr.data).mapM parseIntChars with
  | none => none
  | some [a] =>
    some (if category = "aa" then pad2 a ++ ":" ++ pad2 0 ++ ":" ++ pad2 0
          else pad2 0 ++ ":" ++ pad2 a ++ ":" ++ pad2 0)
  | some [a, b] =>
    some (if category = "aa" then pad2 a ++ ":" ++ pad2 b ++ ":" ++ pad2 0
          else pad2 0 ++ ":" ++ pad2 a ++ ":" ++ pad2 b)
  | some [a, b, c] => some (pad2 a ++ ":" ++ pad2 b ++ ":" ++ pad2 c)
  | some _ => none

/-- `QueryParser._parse_time`: strip an optional leading `<`/`>` (default
`>`), parse the remainder as a time string, and route the value to
`ltetime`/`LTE_TIME` or `gtetime`/`GTE_TIME`.  (The call site guarantees a
nonempty argument; the `[]` branch is unreachable.) -/
def parseTime (category arg : String) : Option ParseResult :=
  let pair :=
    match arg.data with
    | c :: rest => if c = '<' ∨ c = '>' then (c, String.mk rest) else ('>', arg)
    | [] => ('>', arg)
  match parseTimeString category pair.2 with
  | none => none
  | some timeVal =>
    if pair.1 = '<' then
      some ({ ltetime := some timeVal }, SearchType.LTE_TIME, timeVal)
    else
      some ({ gtetime := some timeVal }, SearchType.GTE_TIME, timeVal)

/-- `QueryParser._parse_as_range`. -/
def parseAsRange (args : List String) : Except String ParseResult :=
  if args.length < 3 then .error "User provided range without start and end values"
  else
    match parseIntPy (args.getD 1 ""), parseIntPy (args.getD 2 "") with
    | some start, some stop =>
      if start < 1 ∨ stop < start then .error "User provided invalid range values"
      else .ok ({ place := some start, take := some (stop - start + 1) },
                SearchType.RANGE, toString start ++ " - " ++ toString stop)
    | _, _ => .error "User provided invalid range values"

/-- `QueryParser._parse_as_top`. -/
def parseAsTop (args : List String) : Except String ParseResult :=
  if args.length < 2 then .error "User provided top without a value"
  else
    match parseIntPy (args.getD 1 "") with
    | none => .error "User provided invalid top value"
    | some n => .ok ({ place := some 1, take := some n },
                     SearchType.TOP, "top " ++ toString n)

/-- `QueryParser._parse_general`: a colon-containing first token is a time
filter; an all-digits first token is a place lookup; otherwise the
space-joined argument list is a name search. -/
def parseGeneral (category : String) (args : List String) : Except String ParseResult :=
  let arg := args.headD ""
  if ':' ∈ arg.data then
    match parseTime category arg with
    | some r => .ok r
    | none => .error "User provided invalid time values"
  else if pyIsdigit arg then
    .ok ({ place := some (Int.ofNat (digitsVal arg.data)) }, SearchType.PLACE, arg)
  else
    .ok ({ name := some (String.intercalate " " args) },
         SearchType.NAME, String.intercalate " " args)

/-- `QueryParser.parse`: empty arguments fall back to a name search for
the channel; otherwise dispatch on the first token (`range`, `top`, or the
general form). -/
def parse (channel category : String) (args : List String) : Except String ParseResult :=
  match args with
  | [] => .ok ({ name := some channel }, SearchType.NAME, channel)
  | a :: _ =>
    if a = "range" then parseAsRange args
    else if a = "top" then parseAsTop args
    else parseGeneral category args

/-! ### Response Formatter (`ResponseFormatter`) -/

/-- `ResponseFormatter.MAX_LENGTH`. -/
def MAX_LENGTH : Nat := 250

/-- `ResponseFormatter._format_players`: `[]` is `"Unknown"`, a singleton
is the name itself, two or more are Oxford-joined with `" & "` before the
last. -/
def formatPlayers : List String → String
  | [] => "Unknown"
  | [p] => p
  | ps => String.intercalate ", " ps.dropLast ++ " & " ++ ps.getLastD ""

/-- `ResponseFormatter._format_entry`: `"#<place>: "` when the place is
shown, the players, then `" (<time>)"` when the time is shown. -/
def formatEntry (run : Run) (showTime showPlace : Bool) : String :=
  (if showPlace then "#" ++ toString run.place ++ ": " else "") ++
    formatPlayers run.players ++
    (if showTime then " (" ++ run.completionTime ++ ")" else "")

/-- `ResponseFormatter._format_entries`: the loop renders the place only
at index 0 and, when `multiple` is false, breaks after the first row; rows
are joined with `" | "`. -/
def formatEntries (results : List Run) (multiple showTime : Bool) : String :=
  match results with
  | [] => ""
  | r :: rs =>
    if multiple then
      String.intercalate " | "
        (formatEntry r showTime true :: rs.map (fun x => formatEntry x showTime false))
    else formatEntry r showTime true

/-- `ResponseFormatter._format_empty`: one sentence per `SearchType`
(the trailing generic fallback of the Python method is unreachable, the
enumeration being closed). -/
def formatEmpty (searchType : SearchType) (searchTerm : String) : String :=
  match searchType with
  | .RANGE => "I can\x27t find any players in the range " ++ searchTerm ++ ". Hmmge"
  | .LTE_TIME => "I can\x27t find a player with a time less than " ++ searchTerm ++ ". Erm"
  | .GTE_TIME => "I can\x27t find a player with a time greater than " ++ searchTerm ++ ". Erm"
  | .PLACE => "I can\x27t find a player at #" ++ searchTerm ++ ". Hmmge"
  | .TOP => "There\x27s no one in the top " ++ searchTerm ++ ". Susge"
  | .NAME => "Sorry, I don\x27t know who " ++ searchTerm ++ " is. smh"

/-- `ResponseFormatter.format` (with the constructor defaulting
`search_term or "ERROR"` folded in): the empty-result message
plus suffix, else the time-inclusive rendering when within
`MAX_LENGTH`, else the time-exclusive rendering when within
`MAX_LENGTH`, else the literal fallback. -/
def format (results : List Run) (board : String) (searchType : SearchType)
    (searchTerm : String) (multiple : Bool) (suffix : String) : String :=
  let term := if searchTerm = "" then "ERROR" else searchTerm
  match results with
  | [] => formatEmpty searchType term ++ suffix
  | r :: rs =>
    let withTime := board ++ " " ++ formatEntries (r :: rs) multiple true ++ suffix
    if withTime.length ≤ MAX_LENGTH then withTime
    else
      let noTime := board ++ " " ++ formatEntries (r :: rs) multiple false ++ suffix
      if noTime.length ≤ MAX_LENGTH then noTime
      else "That\x27s too many players. smh"

/-! ### Boards Cache (`BoardsCache`)

The mutable fields of the cache object become `CacheState`; the remote
`get_boards` becomes an oracle `fetch : String → Except Unit (List Board)`.
`_ensure_updated` returns the new state together with the number of
`get_boards` invocations it performed; a raised fetch error becomes the
`err` constructor carrying the partially updated state (the Python
object keeps its mutations when the exception propagates). -/

/-- `BoardsCache._CACHE_EXPIRY`. -/
def CACHE_EXPIRY : Nat := 3600

/-- The mutable state of a `BoardsCache`: `boards_by_category` (the dict
lookup `.get(category, [])` is modelled by a total function) and `last_update`. -/
structure CacheState where
  boardsByCategory : String → List Board
  lastUpdate : Nat

/-- The stable boolean-key sort
`sorted(boards, key=lambda b: not b.get("isDefault", False))`: entries
with `isDefault` first, original order preserved within each class. -/
def sortBoards (bs : List Board) : List Board :=
  bs.filter (fun b => b.isDefault) ++ bs.filter (fun b => !b.isDefault)

/-- Outcome of `_ensure_updated`: the state after the call and the number
of remote `get_boards` calls made; `err` models a propagating fetch
exception (the failing call is counted). -/
inductive UpdateResult where
  | ok (st : CacheState) (fetches : Nat)
  | err (st : CacheState) (fetches : Nat)

/-- The refresh loop body of `_ensure_updated`: fetch each category in
order, storing each sorted list as it arrives; a failure stops the loop
with the categories fetched so far already stored. -/
def refreshCats (fetch : String → Except Unit (List Board)) :
    List String → CacheState → Nat → CacheState × Nat × Bool
  | [], st, n => (st, n, true)
  | c :: cs, st, n =>
    match fetch c with
    | .error _ => (st, n + 1, false)
    | .ok bs =>
      refreshCats fetch cs
        { st with boardsByCategory :=
            fun k => if k = c then sortBoards bs else st.boardsByCategory k }
        (n + 1)

/-- `BoardsCache._ensure_updated`: refresh every category when more than
`_CACHE_EXPIRY` seconds have passed since `last_update`, then stamp
`last_update`; the stamp happens only after the whole loop succeeds. -/
def ensureUpdated (fetch : String → Except Unit (List Board)) (now : Nat)
    (st : CacheState) : UpdateResult :=
  if CACHE_EXPIRY < now - st.lastUpdate then
    match refreshCats fetch CATEGORIES st 0 with
    | (st', n, true) => .ok { st' with lastUpdate := now } n
    | (st', n, false) => .err st' n
  else .ok st 0

/-- `BoardsCache.clear_cache`. -/
def clearCache (st : CacheState) : CacheState := { st with lastUpdate := 0 }

/-- `BoardsCache._get_board_names`. -/
def boardNames (st : CacheState) (category : String) : List String :=
  (st.boardsByCategory category).map (fun b => b.name)

/-- The lookup loop of `BoardsCache.get_board_display_name` (after the
refresh check): first board with the given name, else `none`. -/
def lookupDisplayName (st : CacheState) (category name : String) : Option String :=
  match (st.boardsByCategory category).find? (fun b => b.name = name) with
  | some b => some b.displayName
  | none => none

/-! ### Command Orchestrator (`LeaderboardCommandHandler`) -/

/-- The remote API as oracles: `get_boards`, `search`,
`get_total_records`; `Except.error ()` models any raised fetch failure. -/
structure Api where
  getBoards : String → Except Unit (List Board)
  search : String → String → Params → Except Unit (List Run)
  getTotalRecords : String → String → Except Unit Int

/-- Which collaborators one `handle` call invoked: remote `get_boards`
calls, `get_total_records` calls, `QueryParser.parse` invocations, and
remote `search` calls. -/
structure Trace where
  boardFetches : Nat
  countCalls : Nat
  parseCalls : Nat
  searchCalls : Nat
  deriving DecidableEq

/-- Apology A (board-list stage). -/
def apologyA : String := "I wasn\x27t able to get the leaderboards. smh"

/-- Apology B (count stage), board-name specific. -/
def apologyB (boardName : String) : String :=
  "Oh I wasn\x27t able to count the number of entries in the " ++ boardName ++ " leaderboard."

/-- Apology C (query-parse stage). -/
def apologyC : String := "Your query is invalid. ReallyGun"

/-- Apology D (search stage), board-name specific. -/
def apologyD (boardName : String) : String :=
  "I wasn\x27t able to query the " ++ boardName ++ " leaderboard. smh"

/-- `LeaderboardCommandHandler._parse_board`. -/
def parseBoard : List String → List String → String × List String
  | a :: rest, validBoards =>
    if a ∈ validBoards then (a, rest)
    else
      match validBoards with
      | v :: _ => (v, a :: rest)
      | [] => ("rsg", a :: rest)
  | [], validBoards =>
    match validBoards with
    | v :: _ => (v, [])
    | [] => ("rsg", [])

/-- `board_name = await ... get_board_display_name(...) or board`: the
display name when found and nonempty (Python `or` treats `""` as falsy),
else the board id. -/
def resolveDisplayName (st : CacheState) (category board : String) : String :=
  match lookupDisplayName st category board with
  | some d => if d = "" then board else d
  | none => board

/-- The list comprehension of the `boards` sub-command: `" (default)"`
appended to the first name. -/
def boardsListing : List String → List String
  | [] => []
  | b :: rest => (b ++ " (default)") :: rest

/-- `LeaderboardCommandHandler.handle`, instrumented with a `Trace` of
collaborator invocations.  `suffix=None` and `suffix=""` both become `""`
(`if not suffix`).  The display-name call repeats the refresh check, so
`ensureUpdated` appears twice, as in the source. -/
def handle (api : Api) (now : Nat) (st : CacheState) (channel category : String)
    (args : List String) (suffix : Option String) : String × CacheState × Trace :=
  let sfx := suffix.getD ""
  match ensureUpdated api.getBoards now st with
  | .err st1 n => (apologyA, st1, ⟨n, 0, 0, 0⟩)
  | .ok st1 n =>
    let boards := boardNames st1 category
    match parseBoard args boards with
    | (board, queryArgs) =>
      match ensureUpdated api.getBoards now st1 with
      | .err st2 n2 => (apologyA, st2, ⟨n + n2, 0, 0, 0⟩)
      | .ok st2 n2 =>
        let boardName := resolveDisplayName st2 category board
        if queryArgs.headD "" = "boards" then
          ("Available boards: " ++ String.intercalate ", " (boardsListing boards),
           st2, ⟨n + n2, 0, 0, 0⟩)
        else if queryArgs.headD "" = "count" then
          match api.getTotalRecords category board with
          | .error _ => (apologyB boardName, st2, ⟨n + n2, 1, 0, 0⟩)
          | .ok count =>
            (if count ≠ 0 then
               "There are " ++ toString count ++ " entries in the " ++ boardName ++ " leaderboard."
             else
               "I can\x27t find any entries for the " ++ boardName ++ " leaderboard.",
             st2, ⟨n + n2, 1, 0, 0⟩)
        else
          match parse channel category queryArgs with
          | .error _ => (apologyC, st2, ⟨n + n2, 0, 1, 0⟩)
          | .ok (params, searchType, searchTerm) =>
            match api.search category board params with
            | .error _ => (apologyD boardName, st2, ⟨n + n2, 0, 1, 1⟩)
            | .ok results =>
              (format results boardName searchType searchTerm params.take.isSome sfx,
               st2, ⟨n + n2, 0, 1, 1⟩)

/-! ### Theorems -/

/-- C1: for every argument list whose first token is `range` followed by two
integer tokens `a`, `b` with `1 ≤ a ≤ b`, the Query Parser produces params
`{place: a, take: b-a+1}`, search type `RANGE`, and search term `"a - b"`;
and it fails with `InvalidQuery` (a raised `ValueError`) whenever fewer than
two following tokens are given, either following token is non-numeric,
`a < 1`, or `b < a`. -/
theorem C1_range_query (channel category s1 s2 : String) (rest tail : List String)
    (a b : Int) :
    (parseIntPy s1 = some a → parseIntPy s2 = some b → 1 ≤ a → a ≤ b →
      parse channel category ("range" :: s1 :: s2 :: rest) =
        .ok ({ place := some a, take := some (b - a + 1) }, SearchType.RANGE,
             toString a ++ " - " ++ toString b)) ∧
    (tail.length < 2 →
      ∃ msg, parse channel category ("range" :: tail) = .error msg) ∧
    (parseIntPy s1 = none ∨ parseIntPy s2 = none →
      ∃ msg, parse channel category ("range" :: s1 :: s2 :: rest) = .error msg) ∧
    (parseIntPy s1 = some a → parseIntPy s2 = some b → a < 1 ∨ b < a →
      ∃ msg, parse channel category ("range" :: s1 :: s2 :: rest) = .error msg) := by
  have hdisp : ∀ l : List String, parse channel category ("range" :: l) =
      parseAsRange ("range" :: l) := fun l => rfl
  have hlen : ¬ ("range" :: s1 :: s2 :: rest).length < 3 := by
    simp [List.length]
  refine ⟨?_, ?_, ?_, ?_⟩
  · intro h1 h2 ha hab
    rw [hdisp, parseAsRange, if_neg hlen]
    simp only [List.getD_cons_succ, List.getD_cons_zero, h1, h2]
    rw [if_neg (by omega)]
  · intro htail
    rw [hdisp, parseAsRange, if_pos (by simp [List.length]; omega)]
    exact ⟨_, rfl⟩
  · intro hbad
    rw [hdisp, parseAsRange, if_neg hlen]
    simp only [List.getD_cons_succ, List.getD_cons_zero]
    rcases hbad with h | h
    · rw [h]
      rcases parseIntPy s2 with _ | v <;> exact ⟨_, rfl⟩
    · rw [h]
      rcases parseIntPy s1 with _ | v <;> exact ⟨_, rfl⟩
  · intro h1 h2 hbad
    rw [hdisp, parseAsRange, if_neg hlen]
    simp only [List.getD_cons_succ, List.getD_cons_zero, h1, h2]
    rw [if_pos (by omega)]
    exact ⟨_, rfl⟩

/-- C1 witness: the `range` theorem applied at concrete inputs — a valid
`range 2 5`, a too-short `range 9`, a non-numeric `range x 5`, and a
reversed `range 5 2`. -/
theorem C1_range_query_witness :
    parse "ch" "aa" ["range", "2", "5"] =
      .ok ({ place := some 2, take := some 4 }, SearchType.RANGE, "2 - 5") ∧
    (∃ msg, parse "ch" "aa" ["range", "9"] = .error msg) ∧
    (∃ msg, parse "ch" "aa" ["range", "x", "5"] = .error msg) ∧
    (∃ msg, parse "ch" "aa" ["range", "5", "2"] = .error msg) := by
  refine ⟨?_, ?_, ?_, ?_⟩
  · have h := (C1_range_query "ch" "aa" "2" "5" [] [] 2 5).1 rfl rfl (by decide) (by decide)
    simpa using h
  · exact (C1_range_query "ch" "aa" "" "" [] ["9"] 0 0).2.1 (by decide)
  · exact (C1_range_query "ch" "aa" "x" "5" [] [] 0 0).2.2.1 (Or.inl rfl)
  · exact (C1_range_query "ch" "aa" "5" "2" [] [] 5 2).2.2.2 rfl rfl (Or.inr (by decide))

/-- Routing helper: a first token that is neither `range` nor `top` and
contains `:` goes through `_parse_general` into `_parse_time`. -/
theorem parse_time_route (channel category arg : String) (tailArgs : List String)
    (hr : arg ≠ "range") (ht : arg ≠ "top") (hc : ':' ∈ arg.data) (r : ParseResult)
    (hp : parseTime category arg = some r) :
    parse channel category (arg :: tailArgs) = .ok r := by
  simp only [parse, parseGeneral, List.headD_cons]
  rw [if_neg hr, if_neg ht, if_pos hc, hp]

/-- C2: for every single token containing `:` (after stripping an optional
leading `<` or `>`), the Query Parser maps the colon-separated numeric
components per category — for `aa`, 1/2/3 components mean
`(hours)`, `(hours, minutes)`, `(hours, minutes, seconds)` with missing
trailing parts 0; for any other category 1/2 components mean `(minutes)`,
`(minutes, seconds)` with hours 0 — always formats the value zero-padded as
`HH:MM:SS`, and routes it to `ltetime`/`LTE_TIME` for sign `<` and to
`gtetime`/`GTE_TIME` for sign `>` or no sign; in particular `"<1:30"` in a
non-`aa` category yields `ltetime = "00:01:30"`. -/
theorem C2_time_filter (channel category arg tv : String) (argsTail : List String)
    (v1 v2 v3 : Int) :
    ((splitCh ':' arg.data).mapM parseIntChars = some [v1] →
      parseTimeString category arg =
        some (if category = "aa" then pad2 v1 ++ ":" ++ pad2 0 ++ ":" ++ pad2 0
              else pad2 0 ++ ":" ++ pad2 v1 ++ ":" ++ pad2 0)) ∧
    ((splitCh ':' arg.data).mapM parseIntChars = some [v1, v2] →
      parseTimeString category arg =
        some (if category = "aa" then pad2 v1 ++ ":" ++ pad2 v2 ++ ":" ++ pad2 0
              else pad2 0 ++ ":" ++ pad2 v1 ++ ":" ++ pad2 v2)) ∧
    ((splitCh ':' arg.data).mapM parseIntChars = some [v1, v2, v3] →
      parseTimeString category arg = some (pad2 v1 ++ ":" ++ pad2 v2 ++ ":" ++ pad2 v3)) ∧
    (∀ rest, arg.data = '<' :: rest → ':' ∈ arg.data →
      parseTimeString category (String.mk rest) = some tv →
      parse channel category (arg :: argsTail) =
        .ok ({ ltetime := some tv }, SearchType.LTE_TIME, tv)) ∧
    (∀ rest, arg.data = '>' :: rest → ':' ∈ arg.data →
      parseTimeString category (String.mk rest) = some tv →
      parse channel category (arg :: argsTail) =
        .ok ({ gtetime := some tv }, SearchType.GTE_TIME, tv)) ∧
    (∀ c rest, arg.data = c :: rest → c ≠ '<' → c ≠ '>' → ':' ∈ arg.data →
      parseTimeString category arg = some tv →
      parse channel category (arg :: argsTail) =
        .ok ({ gtetime := some tv }, SearchType.GTE_TIME, tv)) ∧
    (category ≠ "aa" →
      parse channel category ("<1:30" :: argsTail) =
        .ok ({ ltetime := some "00:01:30" }, SearchType.LTE_TIME, "00:01:30")) := by
  have hne : ∀ (s : String) (c : Char) (rest : List Char),
      arg.data = c :: rest → s.data.headD ' ' ≠ c → arg ≠ s := by
    intro s c rest hd hs h
    subst h
    rw [hd] at hs
    simp at hs
  refine ⟨?_, ?_, ?_, ?_, ?_, ?_, ?_⟩
  · intro h
    rw [parseTimeString, h]
  · intro h
    rw [parseTimeString, h]
  · intro h
    rw [parseTimeString, h]
  · intro rest hd hc hts
    refine parse_time_route channel category arg argsTail
      (hne _ _ _ hd (by decide)) (hne _ _ _ hd (by decide)) hc _ ?_
    simp [parseTime, hd]
    rw [hts]
  · intro rest hd hc hts
    refine parse_time_route channel category arg argsTail
      (hne _ _ _ hd (by decide)) (hne _ _ _ hd (by decide)) hc _ ?_
    simp [parseTime, hd]
    rw [hts]
  · intro c rest hd h1 h2 hc hts
    have hsign : ¬ (c = '<' ∨ c = '>') := by
      rintro (h | h) <;> [exact h1 h; exact h2 h]
    refine parse_time_route channel category arg argsTail ?_ ?_ hc _ ?_
    · intro h
      subst h
      rw [show ("range" : String).data = ['r', 'a', 'n', 'g', 'e'] from rfl] at hd
      obtain ⟨hh, -⟩ := List.cons.inj hd.symm
      exact absurd hc (by simp [show ("range" : String).data = ['r', 'a', 'n', 'g', 'e'] from rfl])
    · intro h
      subst h
      exact absurd hc (by decide)
    · simp only [parseTime, hd]
      rw [if_neg hsign, hts]
      simp [h1]
  · intro hcat
    refine parse_time_route channel category "<1:30" argsTail (by decide) (by decide)
      (by decide) _ ?_
    have hstep : parseTime category "<1:30" =
        match parseTimeString category "1:30" with
        | none => none
        | some timeVal =>
          some ({ ltetime := some timeVal }, SearchType.LTE_TIME, timeVal) := rfl
    have h130 : parseTimeString category "1:30" =
        some (if category = "aa" then pad2 1 ++ ":" ++ pad2 30 ++ ":" ++ pad2 0
              else pad2 0 ++ ":" ++ pad2 1 ++ ":" ++ pad2 30) := rfl
    rw [hstep, h130, if_neg hcat]
    rfl

/-- C2 witness: the time-filter theorem applied at concrete inputs in
category `any`: the component mappings at `"7"`, `"1:30"`, `"1:2:3"`, the
sign routings at `"<1:30"`, `">1:30"`, `"1:30"`, and the `"<1:30"`
example itself. -/
theorem C2_time_filter_witness :
    parseTimeString "any" "7" = some "00:07:00" ∧
    parseTimeString "any" "1:30" = some "00:01:30" ∧
    parseTimeString "any" "1:2:3" = some "01:02:03" ∧
    parse "ch" "any" ["<1:30"] =
      .ok ({ ltetime := some "00:01:30" }, SearchType.LTE_TIME, "00:01:30") ∧
    parse "ch" "any" [">1:30"] =
      .ok ({ gtetime := some "00:01:30" }, SearchType.GTE_TIME, "00:01:30") ∧
    parse "ch" "any" ["1:30"] =
      .ok ({ gtetime := some "00:01:30" }, SearchType.GTE_TIME, "00:01:30") := by
  have t1 := (C2_time_filter "ch" "any" "7" "" [] 7 0 0).1 (by decide)
  have t2 := (C2_time_filter "ch" "any" "1:30" "" [] 1 30 0).2.1 (by decide)
  have t3 := (C2_time_filter "ch" "any" "1:2:3" "" [] 1 2 3).2.2.1 (by decide)
  have t4 := (C2_time_filter "ch" "any" "<1:30" "00:01:30" [] 0 0 0).2.2.2.1
    ('1' :: ':' :: '3' :: '0' :: []) rfl (by decide) (by decide)
  have t5 := (C2_time_filter "ch" "any" ">1:30" "00:01:30" [] 0 0 0).2.2.2.2.1
    ('1' :: ':' :: '3' :: '0' :: []) rfl (by decide) (by decide)
  have t6 := (C2_time_filter "ch" "any" "1:30" "00:01:30" [] 0 0 0).2.2.2.2.2.1
    '1' (':' :: '3' :: '0' :: []) rfl (by decide) (by decide) (by decide) (by decide)
  exact ⟨by simpa using t1, by simpa using t2, by simpa using t3, t4, t5, t6⟩

/-- C3 counterexample: parsing the argument list `["5"]` in category `aa`
does NOT produce a `GTE_TIME` time search — the all-digits rule fires first
and yields a `PLACE` lookup, so the claim fails at this concrete input. -/
theorem C3_counterexample :
    parse "ch" "aa" ["5"] = .ok ({ place := some 5 }, SearchType.PLACE, "5") ∧
    SearchType.PLACE ≠ SearchType.GTE_TIME := ⟨rfl, by decide⟩

/-- C3 amended: parsing `["5"]` (all digits, no colon) produces a `PLACE`
lookup with place 5 in every category; the stated time round-trip holds one
level down, at `_parse_time`: applied to `"5"` it yields `"05:00:00"` with
`GTE_TIME` in category `aa` and `"00:05:00"` with `GTE_TIME` in any other
category. -/
theorem C3_amended (channel category : String) :
    parse channel category ["5"] = .ok ({ place := some 5 }, SearchType.PLACE, "5") ∧
    parseTime "aa" "5" =
      some ({ gtetime := some "05:00:00" }, SearchType.GTE_TIME, "05:00:00") ∧
    (category ≠ "aa" →
      parseTime category "5" =
        some ({ gtetime := some "00:05:00" }, SearchType.GTE_TIME, "00:05:00")) := by
  refine ⟨rfl, rfl, ?_⟩
  intro hcat
  have hstep : parseTime category "5" =
      match parseTimeString category "5" with
      | none => none
      | some timeVal =>
        some ({ gtetime := some timeVal }, SearchType.GTE_TIME, timeVal) := rfl
  have h5 : parseTimeString category "5" =
      some (if category = "aa" then pad2 5 ++ ":" ++ pad2 0 ++ ":" ++ pad2 0
            else pad2 0 ++ ":" ++ pad2 5 ++ ":" ++ pad2 0) := rfl
  rw [hstep, h5, if_neg hcat]
  rfl

/-- C3 witness: the amended theorem applied at category `any`. -/
theorem C3_amended_witness :
    parse "ch" "any" ["5"] = .ok ({ place := some 5 }, SearchType.PLACE, "5") ∧
    parseTime "any" "5" =
      some ({ gtetime := some "00:05:00" }, SearchType.GTE_TIME, "00:05:00") :=
  ⟨(C3_amended "ch" "any").1, (C3_amended "ch" "any").2.2 (by decide)⟩

/-- C4: for every non-empty result list, board name, search term, and
suffix, if the time-inclusive rendering exceeds 250 characters then
`format` returns the time-exclusive re-rendering when that fits, and the
literal "too many players" fallback (with no suffix) when it does not. -/
theorem C4_length_degradation (r : Run) (rs : List Run) (board searchTerm suffix : String)
    (searchType : SearchType) (multiple : Bool)
    (hlong : MAX_LENGTH < (board ++ " " ++ formatEntries (r :: rs) multiple true ++ suffix).length) :
    format (r :: rs) board searchType searchTerm multiple suffix =
      if (board ++ " " ++ formatEntries (r :: rs) multiple false ++ suffix).length ≤ MAX_LENGTH
      then board ++ " " ++ formatEntries (r :: rs) multiple false ++ suffix
      else "That\x27s too many players. smh" := by
  simp only [format]
  rw [if_neg (by omega)]

/-- C4 witness: a row whose completion time blows the 250-character budget
degrades to the time-exclusive rendering, and a row whose player name
alone blows it degrades to the literal fallback. -/
theorem C4_length_degradation_witness :
    format [⟨1, ["A"], String.mk (List.replicate 260 't')⟩] "B" SearchType.PLACE "1" false "" =
      "B #1: A" ∧
    format [⟨1, [String.mk (List.replicate 300 'a')], "t"⟩] "B" SearchType.PLACE "1" false "" =
      "That\x27s too many players. smh" := by
  have h1 := C4_length_degradation ⟨1, ["A"], String.mk (List.replicate 260 't')⟩ []
    "B" "1" "" SearchType.PLACE false (by decide)
  have h2 := C4_length_degradation ⟨1, [String.mk (List.replicate 300 'a')], "t"⟩ []
    "B" "1" "" SearchType.PLACE false (by decide)
  exact ⟨by rw [h1]; decide, by rw [h2]; decide⟩

/-- C5: for every non-empty result list the formatter shows the place
number only on the first row; with `multiple = false` it renders exactly
one row (the first) no matter how many rows were supplied — at the
`format` level the output equals that for the first row alone — and with
`multiple = true` all rows are rendered joined by `" | "`, the tail rows
without place numbers. -/
theorem C5_row_rendering (r : Run) (rs : List Run) (showTime : Bool)
    (board searchTerm suffix : String) (searchType : SearchType) :
    formatEntries (r :: rs) false showTime = formatEntries [r] false showTime ∧
    format (r :: rs) board searchType searchTerm false suffix =
      format [r] board searchType searchTerm false suffix ∧
    formatEntries (r :: rs) true showTime =
      String.intercalate " | "
        (formatEntry r showTime true :: rs.map (fun x => formatEntry x showTime false)) :=
  ⟨rfl, rfl, rfl⟩

/-- C10: when the result list is empty the formatter returns the
`SearchType`-specific not-found sentence with the suffix appended and no
length check — so a suffix longer than 250 characters makes the returned
message exceed 250 characters; the cap applies only to non-empty results. -/
theorem C10_empty_no_cap (board searchTerm suffix : String) (searchType : SearchType)
    (multiple : Bool) :
    format [] board searchType searchTerm multiple suffix =
      formatEmpty searchType (if searchTerm = "" then "ERROR" else searchTerm) ++ suffix ∧
    (MAX_LENGTH < suffix.length →
      MAX_LENGTH < (format [] board searchType searchTerm multiple suffix).length) := by
  refine ⟨rfl, ?_⟩
  intro hs
  have : format [] board searchType searchTerm multiple suffix =
      formatEmpty searchType (if searchTerm = "" then "ERROR" else searchTerm) ++ suffix := rfl
  rw [this, String.length_append]
  omega

/-- C10 witness: with a 251-character suffix the empty-result message
exceeds 250 characters. -/
theorem C10_empty_no_cap_witness :
    MAX_LENGTH <
      (format [] "B" SearchType.NAME "x" false (String.mk (List.replicate 251 's'))).length :=
  (C10_empty_no_cap "B" "x" (String.mk (List.replicate 251 's')) SearchType.NAME false).2
    (by decide)

/-- The refresh loop performs at most one `get_boards` call per category. -/
theorem refreshCats_fetches_le (fetch : String → Except Unit (List Board)) :
    ∀ (cats : List String) (st : CacheState) (n : Nat),
      (refreshCats fetch cats st n).2.1 ≤ n + cats.length := by
  intro cats
  induction cats with
  | nil => intro st n; simp [refreshCats]
  | cons c cs ih =>
    intro st n
    simp only [refreshCats]
    cases fetch c with
    | error e =>
      simp only [List.length_cons]
      omega
    | ok bs =>
      refine le_trans (ih _ _) ?_
      simp only [List.length_cons]
      omega

/-- After a successful `_ensure_updated`, repeating the call at the same
time performs no fetch and leaves the state unchanged. -/
theorem ensureUpdated_ok_again (fetch : String → Except Unit (List Board)) (now : Nat)
    (st st1 : CacheState) (n : Nat) (h : ensureUpdated fetch now st = .ok st1 n) :
    ensureUpdated fetch now st1 = .ok st1 0 := by
  unfold ensureUpdated at h ⊢
  by_cases hc : CACHE_EXPIRY < now - st.lastUpdate
  · rw [if_pos hc] at h
    rcases hr : refreshCats fetch CATEGORIES st 0 with ⟨st', n', b⟩
    rw [hr] at h
    cases b
    · exact absurd h (by simp)
    · simp only at h
      have hst : st1 = { st' with lastUpdate := now } := by
        cases h
        rfl
      have hlu : st1.lastUpdate = now := by rw [hst]
      rw [if_neg (by rw [hlu]; simp [CACHE_EXPIRY])]
  · rw [if_neg hc] at h
    have hst : st1 = st := by
      cases h
      rfl
    subst hst
    rw [if_neg hc]

/-- C6: a Boards Cache call made within 3600 seconds of the last
successful refresh performs no remote fetch and leaves the cache
unchanged, so two calls whose second falls inside the window together
perform at most one full refresh (at most one `get_boards` call per
category, the second call contributing none); and after `clear_cache()`
the next call (at any wall-clock time past the expiry constant) performs
exactly one full refresh — one fetch per category. -/
theorem C6_cache_refresh (fetch : String → Except Unit (List Board)) (st st1 : CacheState)
    (t1 t2 : Nat) (n1 : Nat) (la lb : List Board) :
    (ensureUpdated fetch t1 st = .ok st1 n1 →
      n1 ≤ CATEGORIES.length ∧
      (t2 - st1.lastUpdate ≤ CACHE_EXPIRY → ensureUpdated fetch t2 st1 = .ok st1 0)) ∧
    (CACHE_EXPIRY < t2 → fetch "any" = .ok la → fetch "aa" = .ok lb →
      ensureUpdated fetch t2 (clearCache st) =
        .ok ⟨fun k => if k = "aa" then sortBoards lb
              else if k = "any" then sortBoards la
              else st.boardsByCategory k, t2⟩ CATEGORIES.length) := by
  constructor
  · intro h
    constructor
    · unfold ensureUpdated at h
      by_cases hc : CACHE_EXPIRY < t1 - st.lastUpdate
      · rw [if_pos hc] at h
        rcases hr : refreshCats fetch CATEGORIES st 0 with ⟨st', n', b⟩
        have hle := refreshCats_fetches_le fetch CATEGORIES st 0
        rw [hr] at hle
        have hle' : n' ≤ 0 + CATEGORIES.length := hle
        rw [hr] at h
        cases b
        · exact absurd h (by simp)
        · simp only at h
          have hn : n1 = n' := by cases h; rfl
          omega
      · rw [if_neg hc] at h
        have : n1 = 0 := by cases h; rfl
        simp [this]
    · intro hwin
      have h2 := ensureUpdated_ok_again fetch t1 st st1 n1 h
      unfold ensureUpdated at h2 ⊢
      by_cases hc : CACHE_EXPIRY < t2 - st1.lastUpdate
      · exact absurd hc (by omega)
      · rw [if_neg hc]
  · intro hgap h1 h2
    unfold ensureUpdated clearCache
    rw [if_pos (by simpa using hgap)]
    simp only [CATEGORIES, refreshCats, h1, h2]
    rfl

/-- C6 witness: with a within-window pair of calls the second performs no
fetch, and a call after `clear_cache` performs one fetch per category. -/
theorem C6_cache_refresh_witness :
    ensureUpdated (fun _ => .ok []) 3000 ⟨fun _ => [], 1000⟩ = .ok ⟨fun _ => [], 1000⟩ 0 ∧
    ensureUpdated (fun _ => .ok []) 4000 (clearCache ⟨fun _ => [], 1000⟩) =
      .ok ⟨fun k => if k = "aa" then sortBoards []
            else if k = "any" then sortBoards []
            else (fun _ => ([] : List Board)) k, 4000⟩ CATEGORIES.length := by
  constructor
  · exact ((C6_cache_refresh (fun _ => .ok []) ⟨fun _ => [], 1000⟩ ⟨fun _ => [], 1000⟩
      2000 3000 0 [] []).1 rfl).2 (by decide)
  · exact (C6_cache_refresh (fun _ => .ok []) ⟨fun _ => [], 1000⟩ ⟨fun _ => [], 1000⟩
      2000 4000 0 [] []).2 (by decide) rfl rfl

/-- C7: when the refresh fetch for the later category (`aa`) in
`CATEGORIES = ["any", "aa"]` raises, the error propagates (`err`), the
the board list of the earlier category is already updated in the returned state,
and `last_update` keeps its previous value — so a later call past the
expiry window re-runs the refresh for all categories. -/
theorem C7_partial_refresh_state (fetch fetch2 : String → Except Unit (List Board))
    (st : CacheState) (now : Nat) (la la2 lb2 : List Board)
    (hgap : CACHE_EXPIRY < now - st.lastUpdate)
    (h1 : fetch "any" = .ok la) (h2 : fetch "aa" = .error ()) :
    ensureUpdated fetch now st =
      .err ⟨fun k => if k = "any" then sortBoards la else st.boardsByCategory k,
            st.lastUpdate⟩ 2 ∧
    (∀ now', CACHE_EXPIRY < now' - st.lastUpdate →
      fetch2 "any" = .ok la2 → fetch2 "aa" = .ok lb2 →
      ensureUpdated fetch2 now'
        ⟨fun k => if k = "any" then sortBoards la else st.boardsByCategory k,
         st.lastUpdate⟩ =
        .ok ⟨fun k => if k = "aa" then sortBoards lb2
              else if k = "any" then sortBoards la2
              else if k = "any" then sortBoards la else st.boardsByCategory k,
             now'⟩ CATEGORIES.length) := by
  constructor
  · unfold ensureUpdated
    rw [if_pos hgap]
    simp only [CATEGORIES, refreshCats, h1, h2]
  · intro now' hgap' h1' h2'
    unfold ensureUpdated
    rw [if_pos (by simpa using hgap')]
    simp only [CATEGORIES, refreshCats, h1', h2']
    rfl

/-- C7 witness: the partial-refresh theorem at a concrete oracle that
succeeds for `any` and fails for `aa`, followed by a recovered oracle. -/
theorem C7_partial_refresh_state_witness :
    ensureUpdated (fun c => if c = "any" then .ok [] else .error ()) 4000 ⟨fun _ => [], 0⟩ =
      .err ⟨fun k => if k = "any" then sortBoards [] else (fun _ => ([] : List Board)) k,
            0⟩ 2 ∧
    ensureUpdated (fun _ => .ok [⟨"rsg", "RSG", true⟩]) 5000
      ⟨fun k => if k = "any" then sortBoards [] else (fun _ => ([] : List Board)) k, 0⟩ =
      .ok ⟨fun k => if k = "aa" then sortBoards [⟨"rsg", "RSG", true⟩]
            else if k = "any" then sortBoards [⟨"rsg", "RSG", true⟩]
            else if k = "any" then sortBoards [] else (fun _ => ([] : List Board)) k,
           5000⟩ CATEGORIES.length := by
  have h := C7_partial_refresh_state (fun c => if c = "any" then .ok [] else .error ())
    (fun _ => .ok [⟨"rsg", "RSG", true⟩]) ⟨fun _ => [], 0⟩ 4000 [] [⟨"rsg", "RSG", true⟩]
    [⟨"rsg", "RSG", true⟩] (by decide) rfl rfl
  exact ⟨h.1, h.2 5000 (by decide) rfl rfl⟩

/-- C8 counterexample: when a board of the category is literally named
`"boards"`, the call `handle(ch, any, ["boards"])` consumes the first token
as a board selection, performs a remote search, and does not return the
board listing — refuting the claim as stated even though the first
argument token is `boards` and the board list was fetched successfully. -/
theorem C8_counterexample :
    (handle ⟨fun _ => .ok [⟨"boards", "Boards", true⟩], fun _ _ _ => .ok [],
       fun _ _ => .ok 0⟩ 4000 ⟨fun _ => [], 0⟩ "ch" "any" ["boards"] none).1 =
      "Sorry, I don\x27t know who ch is. smh" ∧
    (handle ⟨fun _ => .ok [⟨"boards", "Boards", true⟩], fun _ _ _ => .ok [],
       fun _ _ => .ok 0⟩ 4000 ⟨fun _ => [], 0⟩ "ch" "any" ["boards"] none).2.2.searchCalls = 1 ∧
    "Sorry, I don\x27t know who ch is. smh" ≠
      "Available boards: " ++ String.intercalate ", " (boardsListing ["boards"]) := by
  exact ⟨rfl, rfl, by decide⟩

/-- C8 amended: for every call whose first argument token is `boards`,
where the board list is fetched successfully and `"boards"` is not itself a
valid board name of the category (otherwise the token is consumed as the
board selection), `handle` returns the comma-joined list of valid board
names with `" (default)"` appended to the first entry, and invokes neither
`get_total_records`, nor the Query Parser, nor the remote search. -/
theorem C8_boards_listing (api : Api) (now : Nat) (st st1 : CacheState) (n : Nat)
    (channel category : String) (rest : List String) (suffix : Option String)
    (hok : ensureUpdated api.getBoards now st = .ok st1 n)
    (hnb : "boards" ∉ boardNames st1 category) :
    (handle api now st channel category ("boards" :: rest) suffix).1 =
      "Available boards: " ++
        String.intercalate ", " (boardsListing (boardNames st1 category)) ∧
    (handle api now st channel category ("boards" :: rest) suffix).2.2 = ⟨n, 0, 0, 0⟩ := by
  have h2 := ensureUpdated_ok_again api.getBoards now st st1 n hok
  rcases hbn : boardNames st1 category with _ | ⟨v, vs⟩ <;> rw [hbn] at hnb <;>
    refine ⟨?_, ?_⟩ <;> simp [handle, hok, h2, hbn, parseBoard, hnb]

/-- C8 witness: the amended theorem at a concrete cached state holding one
board `rsg`. -/
theorem C8_boards_listing_witness :
    (handle ⟨fun _ => .ok [], fun _ _ _ => .ok [], fun _ _ => .ok 0⟩ 2000
       ⟨fun _ => [⟨"rsg", "RSG", true⟩], 1000⟩ "ch" "any" ["boards"] none).1 =
      "Available boards: " ++
        String.intercalate ", "
          (boardsListing (boardNames ⟨fun _ => [⟨"rsg", "RSG", true⟩], 1000⟩ "any")) := by
  exact (C8_boards_listing ⟨fun _ => .ok [], fun _ _ _ => .ok [], fun _ _ => .ok 0⟩ 2000
    ⟨fun _ => [⟨"rsg", "RSG", true⟩], 1000⟩ ⟨fun _ => [⟨"rsg", "RSG", true⟩], 1000⟩ 0
    "ch" "any" [] none rfl (by decide)).1

/-- Length of apology B as a function of the board name. -/
theorem apologyB_length (s : String) : (apologyB s).length = s.length + 68 := by
  have h1 : ("Oh I wasn\x27t able to count the number of entries in the " : String).length
      = 55 := rfl
  have h2 : (" leaderboard." : String).length = 13 := rfl
  simp only [apologyB, String.length_append, h1, h2]
  omega

/-- Length of apology D as a function of the board name. -/
theorem apologyD_length (s : String) : (apologyD s).length = s.length + 44 := by
  have h1 : ("I wasn\x27t able to query the " : String).length = 27 := rfl
  have h2 : (" leaderboard. smh" : String).length = 17 := rfl
  simp only [apologyD, String.length_append, h1, h2]
  omega

/-- C9: `handle` is a total function into strings — every stage failure is
converted to a canned apology rather than escaping — and the four apology
strings are pairwise distinct for any board name: a board-list fetch
failure yields apology A, a count-stage fetch failure apology B, a query
parse failure apology C, and a search-stage fetch failure the
board-name-specific apology D. -/
theorem C9_error_mapping :
    (∀ (api : Api) (now : Nat) (st : CacheState) (channel category : String)
       (args : List String) (suffix : Option String) (st1 : CacheState) (n : Nat),
      ensureUpdated api.getBoards now st = .err st1 n →
      (handle api now st channel category args suffix).1 = apologyA) ∧
    (∀ (api : Api) (now : Nat) (st : CacheState) (channel category : String)
       (args : List String) (suffix : Option String) (st1 : CacheState) (n : Nat)
       (board : String) (queryArgs : List String),
      ensureUpdated api.getBoards now st = .ok st1 n →
      parseBoard args (boardNames st1 category) = (board, queryArgs) →
      queryArgs.headD "" = "count" →
      api.getTotalRecords category board = .error () →
      (handle api now st channel category args suffix).1 =
        apologyB (resolveDisplayName st1 category board)) ∧
    (∀ (api : Api) (now : Nat) (st : CacheState) (channel category : String)
       (args : List String) (suffix : Option String) (st1 : CacheState) (n : Nat)
       (board : String) (queryArgs : List String) (msg : String),
      ensureUpdated api.getBoards now st = .ok st1 n →
      parseBoard args (boardNames st1 category) = (board, queryArgs) →
      queryArgs.headD "" ≠ "boards" → queryArgs.headD "" ≠ "count" →
      parse channel category queryArgs = .error msg →
      (handle api now st channel category args suffix).1 = apologyC) ∧
    (∀ (api : Api) (now : Nat) (st : CacheState) (channel category : String)
       (args : List String) (suffix : Option String) (st1 : CacheState) (n : Nat)
       (board : String) (queryArgs : List String) (params : Params)
       (searchType : SearchType) (searchTerm : String),
      ensureUpdated api.getBoards now st = .ok st1 n →
      parseBoard args (boardNames st1 category) = (board, queryArgs) →
      queryArgs.headD "" ≠ "boards" → queryArgs.headD "" ≠ "count" →
      parse channel category queryArgs = .ok (params, searchType, searchTerm) →
      api.search category board params = .error () →
      (handle api now st channel category args suffix).1 =
        apologyD (resolveDisplayName st1 category board)) ∧
    (∀ boardName : String,
      apologyA ≠ apologyB boardName ∧ apologyA ≠ apologyC ∧
      apologyA ≠ apologyD boardName ∧ apologyB boardName ≠ apologyC ∧
      apologyB boardName ≠ apologyD boardName ∧ apologyC ≠ apologyD boardName) := by
  have hA : apologyA.length = 42 := rfl
  have hC : apologyC.length = 32 := rfl
  refine ⟨?_, ?_, ?_, ?_, ?_⟩
  · intro api now st channel category args suffix st1 n h
    simp [handle, h]
  · intro api now st channel category args suffix st1 n board queryArgs hok hpb hhd hcount
    have h2 := ensureUpdated_ok_again api.getBoards now st st1 n hok
    rw [List.headD_eq_head?] at hhd
    simp [handle, hok, hpb, h2, hhd, hcount]
  · intro api now st channel category args suffix st1 n board queryArgs msg hok hpb hb hc
      hparse
    have h2 := ensureUpdated_ok_again api.getBoards now st st1 n hok
    rw [List.headD_eq_head?] at hb hc
    simp [handle, hok, hpb, h2, hb, hc, hparse]
  · intro api now st channel category args suffix st1 n board queryArgs params searchType
      searchTerm hok hpb hb hc hparse hsearch
    have h2 := ensureUpdated_ok_again api.getBoards now st st1 n hok
    rw [List.headD_eq_head?] at hb hc
    simp [handle, hok, hpb, h2, hb, hc, hparse, hsearch]
  · intro boardName
    refine ⟨?_, by decide, ?_, ?_, ?_, ?_⟩
    · intro h
      have hl := congrArg String.length h
      rw [hA, apologyB_length] at hl
      omega
    · intro h
      have hl := congrArg String.length h
      rw [hA, apologyD_length] at hl
      omega
    · intro h
      have hl := congrArg String.length h
      rw [apologyB_length, hC] at hl
      omega
    · intro h
      have hl := congrArg String.length h
      rw [apologyB_length, apologyD_length] at hl
      omega
    · intro h
      have hl := congrArg String.length h
      rw [hC, apologyD_length] at hl
      omega

/-- C9 witness: the four stage-failure mappings applied at concrete
oracles — a failing board fetch, a failing count, an invalid query, and a
failing search. -/
theorem C9_error_mapping_witness :
    (handle ⟨fun _ => .error (), fun _ _ _ => .ok [], fun _ _ => .ok 0⟩ 4000
       ⟨fun _ => [], 0⟩ "ch" "any" [] none).1 = apologyA ∧
    (handle ⟨fun _ => .ok [], fun _ _ _ => .ok [], fun _ _ => .error ()⟩ 2000
       ⟨fun _ => [], 1000⟩ "ch" "any" ["count"] none).1 =
      apologyB (resolveDisplayName ⟨fun _ => [], 1000⟩ "any" "rsg") ∧
    (handle ⟨fun _ => .ok [], fun _ _ _ => .ok [], fun _ _ => .ok 0⟩ 2000
       ⟨fun _ => [], 1000⟩ "ch" "any" ["range"] none).1 = apologyC ∧
    (handle ⟨fun _ => .ok [], fun _ _ _ => .error (), fun _ _ => .ok 0⟩ 2000
       ⟨fun _ => [], 1000⟩ "ch" "any" ["3"] none).1 =
      apologyD (resolveDisplayName ⟨fun _ => [], 1000⟩ "any" "rsg") := by
  refine ⟨?_, ?_, ?_, ?_⟩
  · exact C9_error_mapping.1 _ 4000 ⟨fun _ => [], 0⟩ "ch" "any" [] none ⟨fun _ => [], 0⟩ 1
      rfl
  · exact C9_error_mapping.2.1 _ 2000 ⟨fun _ => [], 1000⟩ "ch" "any" ["count"] none
      ⟨fun _ => [], 1000⟩ 0 "rsg" ["count"] rfl rfl rfl rfl
  · exact C9_error_mapping.2.2.1 _ 2000 ⟨fun _ => [], 1000⟩ "ch" "any" ["range"] none
      ⟨fun _ => [], 1000⟩ 0 "rsg" ["range"]
      "User provided range without start and end values" rfl rfl (by decide) (by decide) rfl
  · exact C9_error_mapping.2.2.2.1 _ 2000 ⟨fun _ => [], 1000⟩ "ch" "any" ["3"] none
      ⟨fun _ => [], 1000⟩ 0 "rsg" ["3"] { place := some 3 } SearchType.PLACE "3"
      rfl rfl (by decide) (by decide) rfl rfl

end Roro
